import Mathlib

/-!
Verification development for the pynautobot request/session engine
(`pynautobot/core/api.py`).  The Python source is shallowly embedded:
`Api.__init__` becomes `apiInit`, the version gate `Api._validate_version`
becomes `validateVersion`, the retry-adapter mounting becomes
`sessionAdapter`, and the `Api.version` property becomes
`ApiModel.versionRead`.  Strings are modelled over their character lists
(ASCII model of `str.isnumeric`: every version string the development
touches is ASCII).  Network behaviour that lives outside the embedded file
(`pynautobot/core/query.py`) is modelled from the specification and marked
as such in the corresponding doc comment.
-/

deriving instance DecidableEq for Except

/-- Python exceptions that construction of an `Api` object can raise:
`IndexError` from `url[-1]` on an empty string, `ValueError` from
`_validate_version`, and `packaging.version.InvalidVersion` propagating out
of `version.parse`. -/
inductive PyError where
  | indexError : PyError
  | valueError : String → PyError
  | invalidVersion : String → PyError
deriving DecidableEq, Repr

/-- Embeds line 87 of api.py:
`base_url = "{}/api".format(url if url[-1] != "/" else url[:-1])`.
`url[-1]` raises `IndexError` when the string is empty; `url[:-1]` drops the
final character. -/
def baseUrlOf (url : String) : Except PyError String :=
  match url.toList.getLast? with
  | none => Except.error PyError.indexError
  | some c =>
      Except.ok ((if c ≠ '/' then url else String.mk url.toList.dropLast) ++ "/api")

/-- Definition following the spec's words for claim C3: the base URL is the
input with at most one trailing slash stripped, then the API path segment
appended. -/
def specNormalizedBase (u : String) : String :=
  (if u.toList.getLast? = some '/' then String.mk u.toList.dropLast else u) ++ "/api"

/-- Python f-string interpolation of an optional value: `None` prints as
`"None"`. Used by line 89, `f"Token {self.token}"`. -/
def pyFString : Option String → String
  | none => "None"
  | some t => t

/-- The urllib3 `Retry` configuration built on lines 95-100 of api.py. -/
structure Retry where
  total : Int
  backoff_factor : Nat
  allowed_methods : Option (List String)
  status_forcelist : List Nat
deriving DecidableEq, Repr

/-- An HTTPAdapter mounted on a set of transport schemes. -/
structure MountedAdapter where
  schemes : List String
  retry : Retry
deriving DecidableEq, Repr

/-- Embeds lines 93-103 of api.py: `if retries:` (Python truthiness on an
integer: any nonzero value) mounts one adapter on both transport schemes,
configured with `total=retries`, `backoff_factor=1`, `allowed_methods=None`
and `status_forcelist=[429, 500, 502, 503, 504]`. -/
def sessionAdapter (retries : Int) : Option MountedAdapter :=
  if retries ≠ 0 then
    some { schemes := ["http://", "https://"],
           retry := { total := retries, backoff_factor := 1,
                      allowed_methods := none,
                      status_forcelist := [429, 500, 502, 503, 504] } }
  else
    none

/-- `str.split` on the dot separator, over character lists: Python
`"1.".split(".") = ["1", ""]` and `"".split(".") = [""]`. -/
def splitDotsAux : List Char → List (List Char)
  | [] => [[]]
  | c :: cs =>
      if c = '.' then [] :: splitDotsAux cs
      else
        match splitDotsAux cs with
        | [] => [[c]]
        | g :: gs => (c :: g) :: gs

/-- Decimal value of a digit list (used only on all-digit lists). -/
def digitsToNat (l : List Char) : Nat :=
  l.foldl (fun n c => n * 10 + (c.toNat - 48)) 0

/-- One dot-separated release segment parses iff it is a nonempty run of
ASCII digits, matching the `[0-9]+` release-segment pattern of
`packaging.version`. -/
def parseSeg (l : List Char) : Option Nat :=
  if !l.isEmpty && l.all Char.isDigit then some (digitsToNat l) else none

/-- `packaging.version.parse` restricted to the strings this gate can feed
it: the release tuple of a numeric-dotted string, `none` when parsing
raises `InvalidVersion` (an empty segment or a non-digit character). -/
def parseVersion (s : String) : Option (List Nat) :=
  (splitDotsAux s.toList).mapM parseSeg

/-- Embeds `api_version.replace(".", "").isnumeric()` from line 122 of
api.py (ASCII model of `str.isnumeric`): after removing every dot, the rest
is a nonempty run of digits. -/
def numericGate (s : String) : Bool :=
  let l := (s.toList.filter (fun c => c ≠ '.'))
  !l.isEmpty && l.all Char.isDigit

/-- Strict comparison of packaging release tuples: lexicographic with
zero-padding of the shorter tuple (packaging strips trailing zeros and
compares tuples, which is the same order). -/
def verLt : List Nat → List Nat → Bool
  | [], b => b.any (fun y => decide (0 < y))
  | x :: xs, [] => decide (x = 0) && verLt xs []
  | x :: xs, y :: ys => decide (x < y) || (decide (x = y) && verLt xs ys)

/-- The release tuple of the floor literal `"2.0"` on line 122. -/
def floorRelease : List Nat := [2, 0]

/-- The fixed message of the `ValueError` raised on line 123 of api.py. -/
def nautobotV1Msg : String :=
  "Nautobot version 1 detected, please downgrade pynautobot to version 1.x"

/-- Embeds `Api._validate_version` (lines 119-123 of api.py) applied to the
server-reported version string: if the dot-stripped string is numeric and
`version.parse` puts it strictly below the floor, a `ValueError` with the
fixed message is raised; if the numeric gate passes but `version.parse`
raises (empty segment), `InvalidVersion` propagates; otherwise the check is
skipped. -/
def validateVersion (api_version : String) : Except PyError Unit :=
  if numericGate api_version then
    match parseVersion api_version with
    | some ver =>
        if verLt ver floorRelease then Except.error (PyError.valueError nautobotV1Msg)
        else Except.ok ()
    | none => Except.error (PyError.invalidVersion api_version)
  else
    Except.ok ()

/-- The claim-side predicate of C1: the string parses to a release strictly
below the floor. -/
def parsesBelowFloor (v : String) : Bool :=
  match parseVersion v with
  | some ver => verLt ver floorRelease
  | none => false

/-- The attribute state of a constructed `Api` object (lines 88-106 of
api.py).  Note there is no field holding the server version: the object
does not store one. -/
structure ApiModel where
  token : Option String
  headers : List (String × String)
  base_url : String
  verify : Bool
  adapter : Option MountedAdapter
  threading : Bool
  max_workers : Nat
  api_version : Option String
deriving DecidableEq, Repr

/-- Embeds `Api.__init__` (lines 77-117 of api.py).  `serverVersion` is the
version string the server reports to the one `GET` that
`_validate_version` performs through the `version` property at the end of
construction.  The `IndexError` from `url[-1]` fires before that network
call. -/
def apiInit (url : String) (token : Option String) (threading : Bool)
    (max_workers : Nat) (api_version : Option String) (retries : Int)
    (verify : Bool) (serverVersion : String) : Except PyError ApiModel :=
  match baseUrlOf url with
  | Except.error e => Except.error e
  | Except.ok base_url =>
      match validateVersion serverVersion with
      | Except.error e => Except.error e
      | Except.ok _ =>
          Except.ok
            { token := token,
              headers := [("Authorization", "Token " ++ pyFString token)],
              base_url := base_url,
              verify := verify,
              adapter := sessionAdapter retries,
              threading := threading,
              max_workers := max_workers,
              api_version := api_version }

/-- Construction with only the base URL supplied: the keyword defaults of
the `Api.__init__` signature (lines 77-86 of api.py): `token=None`,
`threading=False`, `max_workers=4`, `api_version=None`, `retries=0`,
`verify=True`. -/
def apiInitDefault (url : String) (serverVersion : String) : Except PyError ApiModel :=
  apiInit url none false 4 none 0 true serverVersion

/-- The arguments the `version` property (lines 144-149 of api.py) passes to
the `Request` it builds on every access. -/
structure RequestModel where
  base : String
  api_version : Option String
  token : Option String
deriving DecidableEq, Repr

/-- The fresh `Request` the `version` property builds each time it is read. -/
def ApiModel.versionRequest (api : ApiModel) : RequestModel :=
  { base := api.base_url, api_version := api.api_version, token := api.token }

/-- Modelled from the spec: `Request.get_version` lives in
pynautobot/core/query.py, which is not part of the embedded file.  The spec
says the version check "performs one GET against a version-reporting path"
and returns the server's reported version string, so the model returns
whatever the server currently reports. -/
def RequestModel.get_version (_ : RequestModel) (serverNow : String) : String :=
  serverNow

/-- Embeds the `Api.version` property (lines 125-149 of api.py): every read
constructs a fresh `Request` and calls `get_version`; no attribute caches
the result, so the value only depends on what the server reports at read
time. -/
def ApiModel.versionRead (api : ApiModel) (serverNow : String) : String :=
  (api.versionRequest).get_version serverNow

/-- Network round trips to the version path made during `__init__`:
`_validate_version` reads `self.version` once (line 121). -/
def versionFetchesOfInit : Nat := 1

/-- Network round trips made by one read of the `version` property: the
property body performs one `get_version` call per evaluation. -/
def versionFetchesOfRead : Nat := 1

/-- Version-path round trips over a client lifetime with `reads`
post-construction reads of the `version` property. -/
def lifetimeVersionFetches (reads : Nat) : Nat :=
  versionFetchesOfInit + reads * versionFetchesOfRead

/-- Modelled from the spec: request header construction is performed by
`Request` in pynautobot/core/query.py, which is not part of the embedded
file.  The spec says "A request without a configured token omits the
Authorization header; with a token, the header is exactly `Token <value>`". -/
def requestAuthHeader (token : Option String) : Option (String × String) :=
  token.map (fun t => ("Authorization", "Token " ++ t))

/-- The Authorization header carried by requests issued through a
constructed client: the client hands its stored `token` to every `Request`
it builds (lines 144-149, 168-173, 203-208 of api.py). -/
def clientAuthHeader (api : ApiModel) : Option (String × String) :=
  requestAuthHeader api.token

/-- Splits a list of records into server pages: `acc` is the current page
being filled (reversed) and `cap` its remaining capacity. -/
def chunkAux (P : Nat) : List α → List α → Nat → List (List α)
  | [], acc, _ => if acc.isEmpty then [] else [acc.reverse]
  | x :: xs, acc, 0 => acc.reverse :: chunkAux P xs [x] (P - 1)
  | x :: xs, acc, cap + 1 => chunkAux P xs (x :: acc) cap

/-- The pages a server with page size `P` serves for a data set `l`
(the first page is nonempty whenever `l` is). -/
def pagesOf (P : Nat) (l : List α) : List (List α) :=
  match l with
  | [] => []
  | x :: xs => chunkAux P xs [x] (P - 1)

/-- Modelled from the spec: sequential pagination in
pynautobot/core/query.py (not part of the embedded file) "fetches
subsequent pages sequentially following the next cursor until exhausted",
concatenating the pages in server order. -/
def fetchSequential (P : Nat) (items : List α) : List α :=
  (pagesOf P items).flatten

/-- The page-indexed results produced by concurrent page fetches: the
completion order `order` lists page indices in the order their fetches
finish, and each fetch returns its page keyed by page index. -/
def pageFetchResults (pages : List (List α)) (order : List Nat) : List (Nat × List α) :=
  order.map (fun i => (i, pages.getD i []))

/-- Modelled from the spec: concurrent pagination in
pynautobot/core/query.py (not part of the embedded file) "fetches the first
page synchronously", then fetches the remaining pages concurrently and
assembles the final sequence "keyed by page number, not by arrival order":
the result is the first page followed by the remaining pages looked up by
their index, whatever the completion order was. -/
def fetchConcurrentPages (pages : List (List α)) (order : List Nat) : List α :=
  pages.getD 0 [] ++
    (((List.range (pages.length - 1)).map
        (fun k => ((pageFetchResults pages order).lookup (k + 1)).getD [])).flatten)

/-- Concurrent fetch of a data set `items` with page size `P` under
completion order `order` of the non-first pages. -/
def fetchConcurrent (P : Nat) (items : List α) (order : List Nat) : List α :=
  fetchConcurrentPages (pagesOf P items) order

/-- `subAt p l` holds when `p` occurs at the head of `l`. -/
def subAt : List Char → List Char → Bool
  | [], _ => true
  | _ :: _, [] => false
  | p :: ps, c :: cs => p = c && subAt ps cs

/-- `hasSub p l` holds when `p` occurs contiguously somewhere in `l`. -/
def hasSub (p : List Char) : List Char → Bool
  | [] => subAt p []
  | c :: cs => subAt p (c :: cs) || hasSub p cs

/-- String containment: does `hay` mention `needle` anywhere? -/
def strHasSub (needle hay : String) : Bool :=
  hasSub needle.toList hay.toList

/-- A concrete client built from a bare host URL with all keyword defaults. -/
def defaultApiHost : ApiModel :=
  { token := none,
    headers := [("Authorization", "Token None")],
    base_url := "http://host:8000/api",
    verify := true,
    adapter := none,
    threading := false,
    max_workers := 4,
    api_version := none }

/-- A concrete client built with a token and otherwise default arguments. -/
def tokenApiHost : ApiModel :=
  { token := some ("abc123"),
    headers := [("Authorization", "Token abc123")],
    base_url := "http://host:8000/api",
    verify := true,
    adapter := none,
    threading := false,
    max_workers := 4,
    api_version := none }

theorem string_toList_ne_nil (u : String) (h : u ≠ "") : u.toList ≠ [] := by
  intro hl
  apply h
  cases u with
  | mk data =>
    simp only [String.toList] at hl
    subst hl
    rfl

theorem apiInit_ok_elim (u : String) (tok : Option String) (th : Bool) (mw : Nat)
    (av : Option String) (r : Int) (vf : Bool) (sv : String) (api : ApiModel)
    (h : apiInit u tok th mw av r vf sv = Except.ok api) :
    api.token = tok ∧ api.threading = th ∧ api.max_workers = mw ∧
    api.api_version = av ∧ api.adapter = sessionAdapter r ∧ api.verify = vf := by
  unfold apiInit at h
  cases hb : baseUrlOf u <;> rw [hb] at h
  · exact absurd h (by simp)
  · cases hv : validateVersion sv <;> rw [hv] at h
    · exact absurd h (by simp)
    · simp only [Except.ok.injEq] at h
      subst h
      exact ⟨rfl, rfl, rfl, rfl, rfl, rfl⟩

theorem chunkAux_flatten {α : Type} (P : Nat) (rest : List α) :
    ∀ (acc : List α) (cap : Nat),
      (chunkAux P rest acc cap).flatten = acc.reverse ++ rest := by
  induction rest with
  | nil =>
    intro acc cap
    unfold chunkAux
    by_cases h : acc.isEmpty
    · rw [if_pos h]
      have hacc : acc = [] := List.isEmpty_iff.mp h
      subst hacc
      rfl
    · rw [if_neg h]
      simp
  | cons x xs ih =>
    intro acc cap
    cases cap with
    | zero =>
      show (acc.reverse :: chunkAux P xs [x] (P - 1)).flatten = acc.reverse ++ x :: xs
      rw [List.flatten_cons, ih]
      simp
    | succ c =>
      show (chunkAux P xs (x :: acc) c).flatten = acc.reverse ++ x :: xs
      rw [ih]
      simp

theorem pagesOf_flatten {α : Type} (P : Nat) (l : List α) :
    (pagesOf P l).flatten = l := by
  cases l with
  | nil => rfl
  | cons x xs =>
    show (chunkAux P xs [x] (P - 1)).flatten = x :: xs
    rw [chunkAux_flatten]
    rfl

theorem lookup_pageFetchResults {α : Type} (pages : List (List α)) (order : List Nat)
    (i : Nat) (h : i ∈ order) :
    (pageFetchResults pages order).lookup i = some (pages.getD i []) := by
  induction order with
  | nil => exact absurd h (List.not_mem_nil i)
  | cons j rest ih =>
    by_cases hij : i = j
    · subst hij
      simp [pageFetchResults, List.lookup]
    · have hmem : i ∈ rest := by
        rcases List.mem_cons.mp h with h1 | h2
        · exact absurd h1 hij
        · exact h2
      have hbeq : (i == j) = false := by simp [hij]
      simp only [pageFetchResults, List.map_cons, List.lookup, hbeq]
      simpa [pageFetchResults] using ih hmem

theorem map_getD_range {α : Type} (l : List α) (d : α) :
    (List.range l.length).map (fun i => l.getD i d) = l := by
  induction l with
  | nil => rfl
  | cons x xs ih =>
    rw [List.length_cons, List.range_succ_eq_map, List.map_cons, List.map_map]
    simp only [Function.comp_def, Nat.succ_eq_add_one, List.getD_cons_zero, List.getD_cons_succ]
    rw [ih]

theorem fetchConcurrentPages_eq_flatten {α : Type} (pages : List (List α)) (order : List Nat)
    (hcover : ∀ j, 0 < j → j < pages.length → j ∈ order) :
    fetchConcurrentPages pages order = pages.flatten := by
  unfold fetchConcurrentPages
  have hmap : (List.range (pages.length - 1)).map
        (fun k => ((pageFetchResults pages order).lookup (k + 1)).getD []) =
      (List.range (pages.length - 1)).map (fun k => pages.getD (k + 1) []) := by
    apply List.map_congr_left
    intro k hk
    have hk' : k < pages.length - 1 := List.mem_range.mp hk
    have hmem : (k + 1) ∈ order := hcover (k + 1) (Nat.succ_pos k) (by omega)
    rw [lookup_pageFetchResults pages order (k + 1) hmem]
    rfl
  rw [hmap]
  cases pages with
  | nil => rfl
  | cons p ps =>
    simp only [List.getD_cons_zero, List.length_cons, Nat.add_sub_cancel]
    have hrest : (List.range ps.length).map (fun k => (p :: ps).getD (k + 1) []) = ps := by
      simp only [List.getD_cons_succ]
      exact map_getD_range ps []
    rw [hrest]
    simp

/-- Claim C1 (counterexample): the claimed equivalence "construction fails
iff the version string is purely numeric-dotted and parses strictly below
the floor" is refuted at the string "1.": its dot-stripped form passes the
numeric test, it does not parse below the floor (it does not parse at all),
yet the gate raises, so construction fails. -/
theorem version_gate_iff_refuted :
    ¬ ((validateVersion ("1.") = Except.ok ()) ↔
        ¬(numericGate ("1.") = true ∧ parsesBelowFloor ("1.") = true)) := by
  decide

/-- Claim C1 (amended): client construction's version gate succeeds iff the
dot-stripped report is not purely numeric, or the report parses as a
numeric-dotted version that is not strictly below the floor "2.0"; when the
numeric test passes, the gate fails either with the incompatibility
ValueError (parses below the floor) or with a propagating InvalidVersion
(numeric but unparseable, e.g. an empty dotted segment).  In particular
construction fails for "1.9" and succeeds for "2.0", "2.3.1" and
"2024.06-dev". -/
theorem version_gate_characterization :
    (∀ v, (validateVersion v = Except.ok ()) ↔
        (numericGate v = false ∨
          (∃ ver, parseVersion v = some ver ∧ verLt ver floorRelease = false))) ∧
    validateVersion ("1.9") = Except.error (PyError.valueError nautobotV1Msg) ∧
    validateVersion ("2.0") = Except.ok () ∧
    validateVersion ("2.3.1") = Except.ok () ∧
    validateVersion ("2024.06-dev") = Except.ok () := by
  refine ⟨?_, by decide, by decide, by decide, by decide⟩
  intro v
  unfold validateVersion
  by_cases hg : numericGate v = true
  · cases hp : parseVersion v with
    | none => simp [hg, hp]
    | some ver =>
      by_cases hlt : verLt ver floorRelease = true
      · simp [hg, hp, hlt]
      · simp [hg, hp, hlt]
  · simp [hg]

/-- Claim C2: a client constructed without a token issues requests with no
Authorization header; a client constructed with token `t` issues requests
whose Authorization header is exactly `Token t`. -/
theorem auth_header_iff_token (u sv : String) (th : Bool) (mw : Nat)
    (av : Option String) (r : Int) (vf : Bool) :
    (∀ api, apiInit u none th mw av r vf sv = Except.ok api →
        clientAuthHeader api = none) ∧
    (∀ t api, apiInit u (some t) th mw av r vf sv = Except.ok api →
        clientAuthHeader api = some ("Authorization", "Token " ++ t)) := by
  constructor
  · intro api h
    have htok := (apiInit_ok_elim u none th mw av r vf sv api h).1
    simp [clientAuthHeader, requestAuthHeader, htok]
  · intro t api h
    have htok := (apiInit_ok_elim u (some t) th mw av r vf sv api h).1
    simp [clientAuthHeader, requestAuthHeader, htok]

theorem auth_header_iff_token_witness :
    clientAuthHeader defaultApiHost = none ∧
    clientAuthHeader tokenApiHost = some ("Authorization", "Token abc123") := by
  constructor
  · exact (auth_header_iff_token ("http://host:8000") ("2.0") false 4 none 0 true).1
      defaultApiHost (by decide)
  · exact ((auth_header_iff_token ("http://host:8000") ("2.0") false 4 none 0 true).2
      ("abc123") tokenApiHost (by decide)).trans (by decide)

/-- Claim C3: for every nonempty base URL, the stored base URL is the input
with at most one trailing slash stripped and then "/api" appended; in
particular "http://host:8000/" and "http://host:8000" both normalize to
"http://host:8000/api". -/
theorem base_url_normalization (u : String) (h : u ≠ "") :
    baseUrlOf u = Except.ok (specNormalizedBase u) ∧
    baseUrlOf ("http://host:8000/") = Except.ok ("http://host:8000/api") ∧
    baseUrlOf ("http://host:8000") = Except.ok ("http://host:8000/api") := by
  refine ⟨?_, by decide, by decide⟩
  have hl : u.toList ≠ [] := string_toList_ne_nil u h
  cases hc : u.data.getLast? with
  | none => exact absurd (List.getLast?_eq_none_iff.mp hc) hl
  | some c =>
    by_cases hcs : c = '/'
    · subst hcs
      simp [baseUrlOf, specNormalizedBase, hc]
    · simp [baseUrlOf, specNormalizedBase, hc, hcs]

theorem base_url_normalization_witness :
    specNormalizedBase ("http://host:8000/") = "http://host:8000/api" ∧
    baseUrlOf ("http://host:8000/") = Except.ok (specNormalizedBase ("http://host:8000/")) :=
  ⟨by decide, (base_url_normalization ("http://host:8000/") (by decide)).1⟩

/-- Claim C4: a positive retry count mounts one retry adapter on both the
plain and secure transport schemes, with total retries R, backoff factor 1,
status set {429, 500, 502, 503, 504} and no HTTP-method allow-list; retry
count 0 (the default) mounts no adapter. -/
theorem retry_adapter_mount_policy (R : Int) :
    (0 < R → sessionAdapter R =
      some { schemes := ["http://", "https://"],
             retry := { total := R, backoff_factor := 1,
                        allowed_methods := none,
                        status_forcelist := [429, 500, 502, 503, 504] } }) ∧
    (R = 0 → sessionAdapter R = none) := by
  constructor
  · intro hR
    unfold sessionAdapter
    rw [if_pos (show R ≠ 0 by omega)]
  · intro h0
    subst h0
    rfl

theorem retry_adapter_mount_policy_witness :
    sessionAdapter 3 =
      some { schemes := ["http://", "https://"],
             retry := { total := 3, backoff_factor := 1,
                        allowed_methods := none,
                        status_forcelist := [429, 500, 502, 503, 504] } } ∧
    sessionAdapter 0 = none :=
  ⟨(retry_adapter_mount_policy 3).1 (by decide), (retry_adapter_mount_policy 0).2 rfl⟩

/-- Claim C5 (counterexample): for the detected server version "1.9" the
gate rejects with a ValueError whose fixed message names neither the
detected version "1.9" nor the required floor "2.0". -/
theorem incompat_error_names_no_versions :
    validateVersion ("1.9") = Except.error (PyError.valueError nautobotV1Msg) ∧
    strHasSub ("1.9") nautobotV1Msg = false ∧
    strHasSub ("2.0") nautobotV1Msg = false := by
  exact ⟨by decide, by decide, by decide⟩

/-- Claim C5 (amended): when the version gate rejects the server,
construction fails with a ValueError — an error type distinct from
transport errors — carrying the fixed message "Nautobot version 1 detected,
please downgrade pynautobot to version 1.x", which does not name the floor
version. -/
theorem incompat_error_fixed_message (v : String) (ver : List Nat)
    (hn : numericGate v = true) (hp : parseVersion v = some ver)
    (hlt : verLt ver floorRelease = true) :
    validateVersion v = Except.error (PyError.valueError nautobotV1Msg) ∧
    strHasSub ("2.0") nautobotV1Msg = false := by
  constructor
  · unfold validateVersion
    simp [hn, hp, hlt]
  · decide

theorem incompat_error_fixed_message_witness :
    numericGate ("1.9") = true ∧ parseVersion ("1.9") = some [1, 9] ∧
    verLt [1, 9] floorRelease = true ∧
    validateVersion ("1.9") = Except.error (PyError.valueError nautobotV1Msg) :=
  ⟨by decide, by decide, by decide,
    (incompat_error_fixed_message ("1.9") [1, 9] (by decide) (by decide) (by decide)).1⟩

/-- Claim C6 (counterexample): the version property is not cached, so the
claimed "fetched exactly once per client lifetime" and "a server upgrade is
only picked up by re-constructing the client" both fail: a client
constructed while the server reported "2.0" reads "3.0" from its version
property after the server upgrade, and a lifetime with one
post-construction version read performs two fetches, not one. -/
theorem version_refetch_counterexample :
    (apiInitDefault ("http://host:8000") ("2.0")).map
        (fun api => api.versionRead ("3.0")) = Except.ok ("3.0") ∧
    ("3.0" : String) ≠ "2.0" ∧
    lifetimeVersionFetches 1 ≠ versionFetchesOfInit := by
  exact ⟨by decide, by decide, by decide⟩

/-- Claim C6 (amended): the client fetches the server version once during
construction (for validation) and stores no version attribute; every later
read of the version property performs a fresh fetch and returns whatever
the server currently reports, so an upgrade is observed by the next read
without re-constructing the client, and a lifetime with `reads`
post-construction reads performs `1 + reads` version fetches. -/
theorem version_read_reflects_server (u : String) (tok : Option String) (th : Bool)
    (mw : Nat) (av : Option String) (r : Int) (vf : Bool) (svInit svNow : String)
    (api : ApiModel) (reads : Nat)
    (h : apiInit u tok th mw av r vf svInit = Except.ok api) :
    api.versionRead svNow = svNow ∧ lifetimeVersionFetches reads = 1 + reads := by
  refine ⟨rfl, ?_⟩
  simp [lifetimeVersionFetches, versionFetchesOfInit, versionFetchesOfRead]

theorem version_read_reflects_server_witness :
    defaultApiHost.versionRead ("3.0") = "3.0" ∧ lifetimeVersionFetches 1 = 1 + 1 :=
  version_read_reflects_server ("http://host:8000") none false 4 none 0 true
    ("2.0") ("3.0") defaultApiHost 1 (by decide)

/-- Claim C7: a paginated list call returns the same ordered sequence — the
server's sequential page order — in sequential mode and in concurrent mode,
for every completion order of the concurrently fetched non-first pages
(hence for every worker count). -/
theorem pagination_order_equivalence {α : Type} (items : List α) (P : Nat)
    (order : List Nat)
    (hcover : ∀ j, 0 < j → j < (pagesOf P items).length → j ∈ order) :
    fetchConcurrent P items order = fetchSequential P items ∧
    fetchSequential P items = items := by
  have h1 : fetchSequential P items = items := pagesOf_flatten P items
  have h2 : fetchConcurrent P items order = items := by
    unfold fetchConcurrent
    rw [fetchConcurrentPages_eq_flatten (pagesOf P items) order hcover]
    exact pagesOf_flatten P items
  exact ⟨h2.trans h1.symm, h1⟩

theorem pagination_order_equivalence_witness :
    fetchConcurrent 3 [0, 1, 2, 3, 4, 5, 6] [2, 1] = fetchSequential 3 [0, 1, 2, 3, 4, 5, 6] ∧
    fetchSequential 3 [0, 1, 2, 3, 4, 5, 6] = [0, 1, 2, 3, 4, 5, 6] :=
  pagination_order_equivalence [0, 1, 2, 3, 4, 5, 6] 3 [2, 1]
    (by
      intro j h1 h2
      have h3 : (pagesOf 3 ([0, 1, 2, 3, 4, 5, 6] : List Nat)).length = 3 := by decide
      rw [h3] at h2
      interval_cases j <;> decide)

/-- Claim C8: construction with only a base URL uses the keyword defaults:
no token, threading off, four max workers, no API-version override, no
retry adapter, TLS verification on. -/
theorem default_construction_fields (u sv : String) (api : ApiModel)
    (h : apiInitDefault u sv = Except.ok api) :
    api.token = none ∧ api.threading = false ∧ api.max_workers = 4 ∧
    api.api_version = none ∧ api.adapter = none ∧ api.verify = true := by
  unfold apiInitDefault at h
  have h' := apiInit_ok_elim u none false 4 none 0 true sv api h
  refine ⟨h'.1, h'.2.1, h'.2.2.1, h'.2.2.2.1, ?_, h'.2.2.2.2.2⟩
  rw [h'.2.2.2.2.1]
  rfl

theorem default_construction_fields_witness :
    apiInitDefault ("http://host:8000") ("2.3.1") = Except.ok defaultApiHost ∧
    (defaultApiHost.token = none ∧ defaultApiHost.threading = false ∧
     defaultApiHost.max_workers = 4 ∧ defaultApiHost.api_version = none ∧
     defaultApiHost.adapter = none ∧ defaultApiHost.verify = true) :=
  ⟨by decide,
    default_construction_fields ("http://host:8000") ("2.3.1") defaultApiHost (by decide)⟩

/-- Claim C9: constructing a client with the empty URL fails before any
network call — for every server version — because the normalization indexes
the last character of the URL, raising an IndexError. -/
theorem empty_url_index_error (tok : Option String) (th : Bool) (mw : Nat)
    (av : Option String) (r : Int) (vf : Bool) (sv : String) :
    apiInit ("") tok th mw av r vf sv = Except.error PyError.indexError := by
  rfl

/-- Claim C10: the retry adapter is mounted iff the retries argument is
nonzero (Python truthiness), so a negative retries value also mounts an
adapter, with the negative total passed through to the retry policy. -/
theorem retry_truthiness_mount (R : Int) :
    ((sessionAdapter R).isSome = true ↔ R ≠ 0) ∧
    (R < 0 → sessionAdapter R =
      some { schemes := ["http://", "https://"],
             retry := { total := R, backoff_factor := 1,
                        allowed_methods := none,
                        status_forcelist := [429, 500, 502, 503, 504] } }) := by
  constructor
  · unfold sessionAdapter
    by_cases h : R = 0 <;> simp [h]
  · intro h
    unfold sessionAdapter
    rw [if_pos (show R ≠ 0 by omega)]

theorem retry_truthiness_mount_witness :
    sessionAdapter (-2) =
      some { schemes := ["http://", "https://"],
             retry := { total := -2, backoff_factor := 1,
                        allowed_methods := none,
                        status_forcelist := [429, 500, 502, 503, 504] } } :=
  (retry_truthiness_mount (-2)).2 (by decide)

